import Mathlib

/-
Shallow embedding of rustle's download engine
(src/download_utils/downloader.rs) and proofs about it.

Modelling conventions:
  * Byte buffers are `List Nat`; HTTP header values are `String`
    (header-value-to-string conversion is assumed to succeed: the claims
    under study never hinge on non-ASCII header bytes).
  * `u64`/`u8` arithmetic is `Nat`; a division whose divisor may be zero is
    guarded explicitly, mirroring Rust's divide-by-zero panic.
  * Network effects are oracles passed as arguments: `download` takes a
    `fetch` function giving each part's result, `init` takes the probe
    response, `download_part_from_url` takes the part's HTTP response.
  * Timing-only state (download_speed, the progress bar, per-chunk counter
    increments) is wall-clock dependent and not claim-relevant; it is
    omitted from the state.
-/

namespace Rustle

/-- Level of support for partial requests (source: enum SupportPartialRequest). -/
inductive SupportPartialRequest where
  | Yes
  | No
  | Unknown
deriving DecidableEq, Repr

/-- Header information of a probe response (source: struct ResponseHeaderInfo). -/
structure ResponseHeaderInfo where
  support_partial : SupportPartialRequest
  content_length : Option Nat
  content_type : Option String
  file_name : Option String
deriving DecidableEq, Repr

/-- Per-part progress counters (source: struct PartDownloadInfo; the
wall-clock download_speed field is omitted, see the module comment). -/
structure PartDownloadInfo where
  downloaded_bytes : Nat
deriving DecidableEq, Repr

/-- Status of a download (source: enum DownloadStatus). -/
inductive DownloadStatus where
  | Idle
  | Downloading
  | Paused
  | Done
  | Error
deriving DecidableEq, Repr

/-- Internal state of the downloader (source: struct RustleDownloaderInner;
the progress bar is display-only and omitted). -/
structure RustleDownloaderInner where
  url : Option String
  out_dir : Option String
  max_parallel_connections : Nat
  get_headers_info : Option ResponseHeaderInfo
  progress_vec : List PartDownloadInfo
  download_status : DownloadStatus
deriving DecidableEq, Repr

/-- One prefix-of test on character lists (Rust str::starts_with used
through str::contains). -/
def isPrefixOfChars : List Char → List Char → Bool
  | [], _ => true
  | _ :: _, [] => false
  | a :: moreA, b :: moreB => a == b && isPrefixOfChars moreA moreB

/-- Substring test on character lists. -/
def containsSub (needle : List Char) : List Char → Bool
  | [] => isPrefixOfChars needle []
  | c :: rest => isPrefixOfChars needle (c :: rest) || containsSub needle rest

/-- Rust str::contains with a string pattern. -/
def strContains (hay needle : String) : Bool :=
  containsSub needle.toList hay.toList

/-- Rust u64::from_str: an optional leading plus sign, then one or more
decimal digits, value below 2^64. -/
def parseU64 (s : String) : Option Nat :=
  let cs := s.toList
  let cs := match cs with
    | c :: rest => if c == Char.ofNat 43 then rest else c :: rest
    | [] => []
  if !cs.isEmpty && cs.all Char.isDigit then
    let v := cs.foldl (fun acc c => acc * 10 + (c.toNat - 48)) 0
    if v < 2 ^ 64 then some v else none
  else none

/-- Rust str::split with a char pattern, on character lists: adjacent
separators yield empty pieces and the empty input yields one empty piece. -/
def splitOnChar (sep : Char) : List Char → List (List Char)
  | [] => [[]]
  | c :: rest =>
    if c == sep then [] :: splitOnChar sep rest
    else
      match splitOnChar sep rest with
      | [] => [[c]]
      | piece :: more => (c :: piece) :: more

/-- Rust str::trim on character lists (whitespace at both ends removed; the
claims only involve ASCII whitespace). -/
def trimChars (cs : List Char) : List Char :=
  ((cs.dropWhile Char.isWhitespace).reverse.dropWhile Char.isWhitespace).reverse

/-- Rust str::trim_matches with a char pattern, on character lists: strip
every leading and trailing occurrence of the character. -/
def trimMatches (c : Char) (cs : List Char) : List Char :=
  ((cs.dropWhile (fun d => d == c)).reverse.dropWhile (fun d => d == c)).reverse

/-- The filename extraction applied to a Content-Disposition value
(source: extract_header_info, the split/find/trim chain of lines 145-149):
split on the semicolon (character 59), find the piece whose trim starts
with "filename=", take what follows the first equals sign (character 61),
and strip surrounding double (34) and single (39) quote characters. -/
def cdFilename (cd : String) : Option String :=
  match (splitOnChar (Char.ofNat 59) cd.toList).find?
      (fun part => isPrefixOfChars ("filename=".toList) (trimChars part)) with
  | none => none
  | some filename_part =>
    match (splitOnChar (Char.ofNat 61) (trimChars filename_part)).get? 1 with
    | none => none
    | some filename =>
      some (String.mk (trimMatches (Char.ofNat 39) (trimMatches (Char.ofNat 34) filename)))

/-- A probe response as extract_header_info reads it: the four header values
and the last path segment of the resolved URL. -/
structure HttpResponse where
  content_length : Option String
  accept_ranges : Option String
  content_type : Option String
  content_disposition : Option String
  url_last_segment : Option String
deriving DecidableEq, Repr

/-- Source: extract_header_info (downloader.rs lines 108-165). Field by field
in source order: Content-Length is parsed (a malformed value is an error),
Accept-Ranges gives the tri-state via a substring test for "bytes",
Content-Type is copied, and the file name comes from Content-Disposition,
else the URL's last path segment, else the fixed default. -/
def extract_header_info (response : HttpResponse) : Except String ResponseHeaderInfo :=
  let clStep : Except String (Option Nat) :=
    match response.content_length with
    | none => Except.ok none
    | some cl_string =>
      match parseU64 cl_string with
      | none => Except.error "Content-Length isn\'t a valid number"
      | some content_bytes => Except.ok (some content_bytes)
  match clStep with
  | Except.error e => Except.error e
  | Except.ok content_length =>
    let support_partial :=
      match response.accept_ranges with
      | none => SupportPartialRequest.Unknown
      | some ar_string =>
        if strContains ar_string "bytes" then SupportPartialRequest.Yes
        else SupportPartialRequest.No
    let fnStep : Except String String :=
      match response.content_disposition with
      | some cd_value =>
        match cdFilename cd_value with
        | some filename => Except.ok filename
        | none => Except.error "Filename not found in content-disposition header."
      | none =>
        match response.url_last_segment with
        | some filename => Except.ok filename
        | none => Except.ok "download_file"
    match fnStep with
    | Except.error e => Except.error e
    | Except.ok fn =>
      Except.ok { support_partial := support_partial,
                  content_length := content_length,
                  content_type := response.content_type,
                  file_name := some fn }

/-- The HTTP response a part fetch observes: status code, body text (read
when the status is unexpected) and the streamed body chunks. -/
structure PartResponse where
  status : Nat
  body : String
  chunks : List (List Nat)
deriving DecidableEq, Repr

/-- Source: download_part_from_url (downloader.rs lines 402-483), response
handling: any status other than 206 Partial Content is an error carrying the
observed status and body; on 206 the streamed chunks are accumulated into
one buffer in receipt order. -/
def download_part_from_url (response : PartResponse) : Except String (List Nat) :=
  if response.status ≠ 206 then
    Except.error ("Didn\'t recieve partial content, got status code : " ++
      toString response.status ++ " | content of response " ++ response.body)
  else
    Except.ok response.chunks.flatten

/-- An inclusive-inclusive byte range handed to one part fetch. -/
structure PartRange where
  start_byte : Nat
  end_byte : Nat
deriving DecidableEq, Repr

/-- Source: the loop body of download (downloader.rs lines 339-348): the
start/end bytes of one part, with the even-num_parts end adjustment and the
start shift of every part but the first. -/
def partRange (content_length num_parts part : Nat) : PartRange :=
  let inc := content_length / num_parts
  let start_byte := part * inc
  let end_byte := (part + 1) * inc
  let end_byte := if part == num_parts - 1 && num_parts % 2 == 0 then end_byte + 1 else end_byte
  let start_byte := if part != 0 then start_byte + 1 else start_byte
  { start_byte := start_byte, end_byte := end_byte }

/-- The full range plan: one PartRange per part index 0..num_parts-1. -/
def planRanges (content_length num_parts : Nat) : List PartRange :=
  (List.range num_parts).map (partRange content_length num_parts)

/-- Source: download (downloader.rs lines 301-312): num_parts starts as
max_parallel_connections and is forced to 1 when partial downloads are not
supported or Content-Length is unknown. -/
def effectiveNumParts (support : SupportPartialRequest) (content_length : Option Nat)
    (max_parallel_connections : Nat) : Nat :=
  if support ≠ SupportPartialRequest.Yes ∨ content_length = none then 1
  else max_parallel_connections

/-- Source: RustleDownloader::new (downloader.rs lines 260-275): always Ok,
fresh state with Idle status; max_parallel_connections is stored unchecked. -/
def new (max_parallel_connections : Nat) : Except String RustleDownloaderInner :=
  Except.ok { url := none, out_dir := none,
              max_parallel_connections := max_parallel_connections,
              get_headers_info := none, progress_vec := [],
              download_status := DownloadStatus.Idle }

/-- Source: set_url (downloader.rs lines 234-238). URL parsing is an oracle
boolean: on success the url field is set, on failure the state is unchanged. -/
def set_url (st : RustleDownloaderInner) (url : String) (parse_ok : Bool) :
    Except String Unit × RustleDownloaderInner :=
  if parse_ok then (Except.ok (), { st with url := some url })
  else (Except.error "invalid url", st)

/-- Source: set_out_dir (downloader.rs lines 247-251). PathBuf::from_str is
infallible, so the directory is always set. -/
def set_out_dir (st : RustleDownloaderInner) (out_dir : String) : RustleDownloaderInner :=
  { st with out_dir := some out_dir }

/-- Outcome of an engine operation: a Rust panic (assert! or arithmetic),
an Err(String), or Ok(true). -/
inductive DlOutcome where
  | panicked : String → DlOutcome
  | failed : String → DlOutcome
  | ok : DlOutcome
deriving DecidableEq, Repr

/-- Source: init (downloader.rs lines 174-195): asserts url and out_dir are
set, performs the probe GET (the oracle `resp`), extracts header info and
stores it; on any failure the state is unchanged. -/
def init (st : RustleDownloaderInner) (resp : Except String HttpResponse) :
    DlOutcome × RustleDownloaderInner :=
  if st.url = none then (DlOutcome.panicked "No valid url was supplied", st)
  else if st.out_dir = none then (DlOutcome.panicked "No valid out_dir was supplied", st)
  else
    match resp with
    | Except.error e => (DlOutcome.failed e, st)
    | Except.ok response =>
      match extract_header_info response with
      | Except.error e => (DlOutcome.failed e, st)
      | Except.ok get_info => (DlOutcome.ok, { st with get_headers_info := some get_info })

/-- Source: pause (downloader.rs lines 198-200): unconditionally sets the
status to Paused. -/
def pause (st : RustleDownloaderInner) : RustleDownloaderInner :=
  { st with download_status := DownloadStatus.Paused }

/-- Source: resume (downloader.rs lines 203-205): unconditionally sets the
status to Downloading. -/
def resume (st : RustleDownloaderInner) : RustleDownloaderInner :=
  { st with download_status := DownloadStatus.Downloading }

/-- Observable effects of one download call: the part requests issued and
the file written (name and content), if any. -/
structure DownloadTrace where
  requests : List PartRange
  written : Option (String × List Nat)
deriving DecidableEq, Repr

/-- The trace of a download call that issued no request and wrote no file. -/
def emptyTrace : DownloadTrace := { requests := [], written := none }

/-- Source: download (downloader.rs lines 288-386). Asserts url/out_dir,
fails when header info is missing, computes num_parts and the range plan
(the division content_length / num_parts panics when num_parts = 0),
initializes the progress vector, sets status Downloading, fans out the part
fetches (the oracle `fetch`), replaces every failed part's result by an
empty buffer (unwrap_or_else of line 363), concatenates in plan order,
unwraps the file name, writes the file (the oracle `write_ok`; on a write
error the call fails with the status left Downloading) and sets Done. -/
def download (st : RustleDownloaderInner)
    (fetch : Nat → PartRange → Except String (List Nat)) (write_ok : Bool) :
    DlOutcome × RustleDownloaderInner × DownloadTrace :=
  if st.url = none then (DlOutcome.panicked "No valid url was supplied", st, emptyTrace)
  else if st.out_dir = none then (DlOutcome.panicked "No valid out_dir was supplied", st, emptyTrace)
  else
    match st.get_headers_info with
    | none => (DlOutcome.failed "Couldn\'t download the file, header info is missing", st, emptyTrace)
    | some headers_info =>
      let num_parts := effectiveNumParts headers_info.support_partial
        headers_info.content_length st.max_parallel_connections
      if num_parts = 0 then
        (DlOutcome.panicked "attempt to divide by zero", st, emptyTrace)
      else
        let content_length := headers_info.content_length.getD 0
        let ranges := planRanges content_length num_parts
        let st1 := { st with
          progress_vec := List.replicate num_parts { downloaded_bytes := 0 },
          download_status := DownloadStatus.Downloading }
        let results := (List.range num_parts).map
          (fun part => fetch part (partRange content_length num_parts part))
        let full_content := (results.map (fun r => (Except.toOption r).getD [])).flatten
        match headers_info.file_name with
        | none =>
          (DlOutcome.panicked "called Option unwrap on a None value", st1,
            { requests := ranges, written := none })
        | some file_name =>
          if write_ok then
            (DlOutcome.ok, { st1 with download_status := DownloadStatus.Done },
              { requests := ranges, written := some (file_name, full_content) })
          else
            (DlOutcome.failed "file write error", st1,
              { requests := ranges, written := none })

/-- The downloader states reachable from new through any sequence of engine
operations, with arbitrary oracle outcomes. -/
inductive Reachable : RustleDownloaderInner → Prop where
  | from_new : ∀ m st, new m = Except.ok st → Reachable st
  | step_set_url : ∀ st url parse_ok, Reachable st → Reachable (set_url st url parse_ok).2
  | step_set_out_dir : ∀ st d, Reachable st → Reachable (set_out_dir st d)
  | step_init : ∀ st resp, Reachable st → Reachable (init st resp).2
  | step_pause : ∀ st, Reachable st → Reachable (pause st)
  | step_resume : ∀ st, Reachable st → Reachable (resume st)
  | step_download : ∀ st fetch write_ok, Reachable st →
      Reachable (download st fetch write_ok).2.1

/-- Equality of Except results is decidable when both components' is. -/
instance instDecEqExcept {ε α : Type} [DecidableEq ε] [DecidableEq α] :
    DecidableEq (Except ε α) := fun x y =>
  match x, y with
  | Except.error a, Except.error b =>
    if h : a = b then isTrue (by rw [h])
    else isFalse (fun hh => by cases hh; exact h rfl)
  | Except.error _, Except.ok _ => isFalse (fun hh => by cases hh)
  | Except.ok _, Except.error _ => isFalse (fun hh => by cases hh)
  | Except.ok a, Except.ok b =>
    if h : a = b then isTrue (by rw [h])
    else isFalse (fun hh => by cases hh; exact h rfl)

/-- The capability info of a probed job with range support and length 4. -/
def fourByteInfo : ResponseHeaderInfo :=
  { support_partial := SupportPartialRequest.Yes, content_length := some 4,
    content_type := none, file_name := some "f.bin" }

/-- A probed state whose capability says ranges are supported with
content length 4, two parallel connections configured. -/
def twoPartState : RustleDownloaderInner :=
  { url := some "http://host/f.bin", out_dir := some "out",
    max_parallel_connections := 2,
    get_headers_info := some fourByteInfo,
    progress_vec := [], download_status := DownloadStatus.Idle }

/-- A fetch oracle under which part 0 fails and every other part returns
the bytes 7, 8. -/
def failingFetch : Nat → PartRange → Except String (List Nat) :=
  fun part _ => if part == 0 then Except.error "part failed" else Except.ok [7, 8]

/-- C1: the range plan of download is claimed to cover exactly the bytes
0 .. total_length - 1 with the final end equal to total_length - 1 and the
division remainder folded into the last range. The code does not do this:
for total_length = 11 and parallelism = 3 the plan is [0,3], [4,6], [7,9],
whose last end is 9, not 10, and no planned range contains byte 10; for
total_length = 1 and parallelism = 1 the single range is [0,1], whose end
is 1, not 0. -/
theorem range_plan_drops_final_bytes :
    effectiveNumParts SupportPartialRequest.Yes (some 11) 3 = 3 ∧
    planRanges 11 3 =
      [{ start_byte := 0, end_byte := 3 }, { start_byte := 4, end_byte := 6 },
       { start_byte := 7, end_byte := 9 }] ∧
    (∀ r ∈ planRanges 11 3, ¬ (r.start_byte ≤ 11 - 1 ∧ 11 - 1 ≤ r.end_byte)) ∧
    planRanges 1 1 = [{ start_byte := 0, end_byte := 1 }] ∧
    ({ start_byte := 0, end_byte := 1 } : PartRange).end_byte ≠ 1 - 1 := by
  decide

/-- C2: the claim says a failing part fetch fails the whole job, discards
partial results, writes no file and surfaces the error. The code instead
replaces the failed part's result by an empty buffer: with part 0 of two
failing, download still returns Ok, writes the remaining bytes to the file
and sets the status to Done. -/
theorem part_failure_swallowed :
    failingFetch 0 (partRange 4 2 0) = Except.error "part failed" ∧
    (download twoPartState failingFetch true).1 = DlOutcome.ok ∧
    ((download twoPartState failingFetch true).2.1).download_status = DownloadStatus.Done ∧
    (download twoPartState failingFetch true).2.2.written = some ("f.bin", [7, 8]) := by
  decide

/-- An idle downloader state that was never probed. -/
def idleState : RustleDownloaderInner :=
  { url := none, out_dir := none, max_parallel_connections := 2,
    get_headers_info := none, progress_vec := [],
    download_status := DownloadStatus.Idle }

/-- C6 counterexample: the claim says pause changes the status only from
Downloading and resume only from Paused, leaving every other state
unchanged. On an Idle state, pause moves the status to Paused and resume
moves it to Downloading, both different from Idle. -/
theorem pause_from_idle_changes_status :
    idleState.download_status = DownloadStatus.Idle ∧
    (pause idleState).download_status = DownloadStatus.Paused ∧
    (resume idleState).download_status = DownloadStatus.Downloading ∧
    DownloadStatus.Paused ≠ DownloadStatus.Idle ∧
    DownloadStatus.Downloading ≠ DownloadStatus.Idle := by
  decide

/-- C6 amended: pause unconditionally sets the status to Paused and resume
unconditionally sets it to Downloading, from any state; each operation is
idempotent. -/
theorem pause_resume_unconditional :
    ∀ st : RustleDownloaderInner,
      (pause st).download_status = DownloadStatus.Paused ∧
      (resume st).download_status = DownloadStatus.Downloading ∧
      pause (pause st) = pause st ∧
      resume (resume st) = resume st := by
  intro st
  exact ⟨rfl, rfl, rfl, rfl⟩

/-- C3: download_part_from_url returns an error, never a byte buffer, on any
response status other than 206, and the error message carries the observed
status and the response body; on a 206 response it returns the accumulated
chunks. -/
theorem download_part_status_check :
    ∀ response : PartResponse,
      (response.status ≠ 206 →
        download_part_from_url response =
          Except.error ("Didn\'t recieve partial content, got status code : " ++
            toString response.status ++ " | content of response " ++ response.body) ∧
        ∀ buffer, download_part_from_url response ≠ Except.ok buffer) ∧
      (response.status = 206 →
        download_part_from_url response = Except.ok response.chunks.flatten) := by
  intro response
  constructor
  · intro h
    constructor
    · simp [download_part_from_url, h]
    · intro buffer
      simp [download_part_from_url, h]
  · intro h
    simp [download_part_from_url, h]

/-- C3 witness: a 200 response yields the error carrying status and body,
and a 206 response yields the joined chunks. -/
theorem download_part_status_check_witness :
    download_part_from_url { status := 200, body := "nope", chunks := [[1]] } =
      Except.error ("Didn\'t recieve partial content, got status code : " ++
        toString (200 : Nat) ++ " | content of response " ++ "nope") ∧
    download_part_from_url { status := 206, body := "", chunks := [[1], [2, 3]] } =
      Except.ok ([[1], [2, 3]] : List (List Nat)).flatten := by
  exact ⟨((download_part_status_check ⟨200, "nope", [[1]]⟩).1 (by decide)).1,
    (download_part_status_check ⟨206, "", [[1], [2, 3]]⟩).2 rfl⟩

/-- C5: download on a state whose capability info is absent fails with the
missing-header-info error, leaves the state unchanged, issues no part
request and writes no file. -/
theorem download_requires_probe :
    ∀ (st : RustleDownloaderInner)
      (fetch : Nat → PartRange → Except String (List Nat)) (write_ok : Bool),
      st.url ≠ none → st.out_dir ≠ none → st.get_headers_info = none →
      download st fetch write_ok =
        (DlOutcome.failed "Couldn\'t download the file, header info is missing",
          st, emptyTrace) := by
  intro st fetch write_ok h1 h2 h3
  simp [download, h1, h2, h3]

/-- An unprobed state with url and out_dir set. -/
def unprobedState : RustleDownloaderInner :=
  { url := some "http://host/f.bin", out_dir := some "out",
    max_parallel_connections := 4, get_headers_info := none,
    progress_vec := [], download_status := DownloadStatus.Idle }

/-- C5 witness: a concrete unprobed state with url and out_dir set. -/
theorem download_requires_probe_witness :
    download unprobedState (fun _ _ => Except.ok []) true =
      (DlOutcome.failed "Couldn\'t download the file, header info is missing",
        unprobedState, emptyTrace) := by
  exact download_requires_probe _ _ _ (by decide) (by decide) rfl

/-- A one-part plan is the single range from byte 0 to content_length. -/
theorem planRanges_one (L : Nat) :
    planRanges L 1 = [{ start_byte := 0, end_byte := L }] := by
  show [partRange L 1 0] = [{ start_byte := 0, end_byte := L }]
  simp [partRange, Nat.div_one]

/-- When the assertions and the probe guard pass and num_parts is not zero,
download reduces to plan, fetch, concatenate, write. -/
theorem download_eq (st : RustleDownloaderInner) (hi : ResponseHeaderInfo)
    (fetch : Nat → PartRange → Except String (List Nat)) (write_ok : Bool)
    (h1 : st.url ≠ none) (h2 : st.out_dir ≠ none)
    (h3 : st.get_headers_info = some hi)
    (hn : effectiveNumParts hi.support_partial hi.content_length
      st.max_parallel_connections ≠ 0) :
    download st fetch write_ok =
      (let num_parts := effectiveNumParts hi.support_partial hi.content_length
        st.max_parallel_connections
      let content_length := hi.content_length.getD 0
      let ranges := planRanges content_length num_parts
      let st1 := { st with
        progress_vec := List.replicate num_parts { downloaded_bytes := 0 },
        download_status := DownloadStatus.Downloading }
      let results := (List.range num_parts).map
        (fun part => fetch part (partRange content_length num_parts part))
      let full_content := (results.map (fun r => (Except.toOption r).getD [])).flatten
      match hi.file_name with
      | none =>
        (DlOutcome.panicked "called Option unwrap on a None value", st1,
          { requests := ranges, written := none })
      | some file_name =>
        if write_ok then
          (DlOutcome.ok, { st1 with download_status := DownloadStatus.Done },
            { requests := ranges, written := some (file_name, full_content) })
        else
          (DlOutcome.failed "file write error", st1,
            { requests := ranges, written := none })) := by
  simp only [download, h3]
  rw [if_neg h1, if_neg h2, if_neg hn]

/-- The part requests a download issues are exactly the computed range plan. -/
theorem download_requests (st : RustleDownloaderInner) (hi : ResponseHeaderInfo)
    (fetch : Nat → PartRange → Except String (List Nat)) (write_ok : Bool)
    (h1 : st.url ≠ none) (h2 : st.out_dir ≠ none)
    (h3 : st.get_headers_info = some hi)
    (hn : effectiveNumParts hi.support_partial hi.content_length
      st.max_parallel_connections ≠ 0) :
    (download st fetch write_ok).2.2.requests =
      planRanges (hi.content_length.getD 0)
        (effectiveNumParts hi.support_partial hi.content_length
          st.max_parallel_connections) := by
  rw [download_eq st hi fetch write_ok h1 h2 h3 hn]
  cases hi.file_name with
  | none => rfl
  | some fn => cases write_ok <;> rfl

/-- A probed state advertising range support but no Content-Length. -/
def unknownLengthState : RustleDownloaderInner :=
  { url := some "http://host/f.bin", out_dir := some "out",
    max_parallel_connections := 8,
    get_headers_info := some { support_partial := SupportPartialRequest.Yes,
                               content_length := none, content_type := none,
                               file_name := some "f.bin" },
    progress_vec := [], download_status := DownloadStatus.Idle }

/-- C4 counterexample: with range support but total_length absent, the claim
says the single planned range covers the whole resource. The code plans the
single range [0, 0]: for any resource of two or more bytes, byte 1 lies in
no planned range, so the plan does not cover the whole resource. -/
theorem single_range_misses_resource_bytes :
    (download unknownLengthState (fun _ _ => Except.ok [5]) true).2.2.requests =
      [{ start_byte := 0, end_byte := 0 }] ∧
    ¬ (∃ r ∈ (download unknownLengthState (fun _ _ => Except.ok [5]) true).2.2.requests,
        r.start_byte ≤ 1 ∧ 1 ≤ r.end_byte) := by
  decide

/-- C4 amended: whenever supports_ranges is not Yes or total_length is
absent, download plans exactly one part regardless of
max_parallel_connections; its single range starts at byte 0 and ends at
total_length when the length is known (hence covers every byte of the
resource), and is the degenerate range [0, 0] when the length is unknown. -/
theorem fallback_single_part_plan :
    ∀ (st : RustleDownloaderInner) (headers_info : ResponseHeaderInfo)
      (fetch : Nat → PartRange → Except String (List Nat)) (write_ok : Bool),
      st.url ≠ none → st.out_dir ≠ none →
      st.get_headers_info = some headers_info →
      (headers_info.support_partial ≠ SupportPartialRequest.Yes ∨
        headers_info.content_length = none) →
      (download st fetch write_ok).2.2.requests =
        [{ start_byte := 0, end_byte := headers_info.content_length.getD 0 }] ∧
      (∀ L, headers_info.content_length = some L →
        ∀ b, b < L → ∃ r ∈ (download st fetch write_ok).2.2.requests,
          r.start_byte ≤ b ∧ b ≤ r.end_byte) := by
  intro st hi fetch write_ok h1 h2 h3 h4
  have hn1 : effectiveNumParts hi.support_partial hi.content_length
      st.max_parallel_connections = 1 := by
    unfold effectiveNumParts
    rw [if_pos h4]
  have hr := download_requests st hi fetch write_ok h1 h2 h3 (by rw [hn1]; exact one_ne_zero)
  rw [hn1, planRanges_one] at hr
  refine ⟨hr, ?_⟩
  intro L hL b hb
  refine ⟨{ start_byte := 0, end_byte := hi.content_length.getD 0 }, ?_, Nat.zero_le b, ?_⟩
  · rw [hr]
    exact List.mem_singleton_self _
  · rw [hL]
    exact Nat.le_of_lt hb

/-- The capability info of a probed job without range support, length 7. -/
def noRangeInfo : ResponseHeaderInfo :=
  { support_partial := SupportPartialRequest.No, content_length := some 7,
    content_type := none, file_name := some "g.bin" }

/-- A probed state whose capability denies range support. -/
def noRangeState : RustleDownloaderInner :=
  { url := some "http://host/g.bin", out_dir := some "out",
    max_parallel_connections := 8,
    get_headers_info := some noRangeInfo,
    progress_vec := [], download_status := DownloadStatus.Idle }

/-- C4 witness: without range support and with length 7, eight configured
connections still give the single request [0, 7], and byte 6 is covered. -/
theorem fallback_single_part_plan_witness :
    (download noRangeState (fun _ _ => Except.ok []) true).2.2.requests =
      [{ start_byte := 0, end_byte := 7 }] ∧
    (∃ r ∈ (download noRangeState (fun _ _ => Except.ok []) true).2.2.requests,
      r.start_byte ≤ 6 ∧ 6 ≤ r.end_byte) := by
  have h := fallback_single_part_plan noRangeState noRangeInfo
    (fun _ _ => Except.ok []) true (by decide) (by decide) rfl (Or.inl (by decide))
  exact ⟨h.1, h.2 7 rfl 6 (by decide)⟩

/-- The capability info of a probed job with range support, length 100. -/
def hundredByteInfo : ResponseHeaderInfo :=
  { support_partial := SupportPartialRequest.Yes, content_length := some 100,
    content_type := none, file_name := some "h.bin" }

/-- A probed range-supporting state configured with zero connections. -/
def zeroParallelState : RustleDownloaderInner :=
  { url := some "http://host/h.bin", out_dir := some "out",
    max_parallel_connections := 0,
    get_headers_info := some hundredByteInfo,
    progress_vec := [], download_status := DownloadStatus.Idle }

/-- C9: new accepts every max_parallel_connections value, zero included, and
for a probed job with range support and a known content length the effective
num_parts equals the configured zero, so the guard of the division
content_length / num_parts fails and download panics with a division by
zero before mutating any state. -/
theorem new_accepts_zero_parallelism :
    (∀ m : Nat, new m = Except.ok
        { url := none, out_dir := none, max_parallel_connections := m,
          get_headers_info := none, progress_vec := [],
          download_status := DownloadStatus.Idle }) ∧
    (∀ (st : RustleDownloaderInner) (headers_info : ResponseHeaderInfo),
      st.get_headers_info = some headers_info →
      st.max_parallel_connections = 0 →
      headers_info.support_partial = SupportPartialRequest.Yes →
      headers_info.content_length ≠ none →
      ¬ (effectiveNumParts headers_info.support_partial headers_info.content_length
          st.max_parallel_connections ≠ 0) ∧
      (st.url ≠ none → st.out_dir ≠ none →
        ∀ (fetch : Nat → PartRange → Except String (List Nat)) (write_ok : Bool),
          download st fetch write_ok =
            (DlOutcome.panicked "attempt to divide by zero", st, emptyTrace))) := by
  constructor
  · intro m
    rfl
  · intro st hi h3 hmax hsup hcl
    have hn : effectiveNumParts hi.support_partial hi.content_length
        st.max_parallel_connections = 0 := by
      unfold effectiveNumParts
      rw [if_neg (by
        intro h
        rcases h with h | h
        · exact h hsup
        · exact hcl h)]
      exact hmax
    refine ⟨by simp [hn], ?_⟩
    intro h1 h2 fetch write_ok
    simp only [download, h3]
    rw [if_neg h1, if_neg h2, if_pos hn]

/-- C9 witness: new 0 succeeds, and download on the resulting configuration,
once probed with range support and length 100, hits the zero division. -/
theorem new_accepts_zero_parallelism_witness :
    new 0 = Except.ok { url := none, out_dir := none,
                        max_parallel_connections := 0, get_headers_info := none,
                        progress_vec := [],
                        download_status := DownloadStatus.Idle } ∧
    download zeroParallelState (fun _ _ => Except.ok []) true =
      (DlOutcome.panicked "attempt to divide by zero", zeroParallelState,
        emptyTrace) := by
  refine ⟨new_accepts_zero_parallelism.1 0, ?_⟩
  exact (new_accepts_zero_parallelism.2 zeroParallelState hundredByteInfo rfl rfl rfl
    (by decide)).2 (by decide) (by decide) (fun _ _ => Except.ok []) true

/-- A present but unparseable Content-Length fails the probe. -/
theorem extract_error_cl (response : HttpResponse) (s : String)
    (hs : response.content_length = some s) (hp : parseU64 s = none) :
    extract_header_info response =
      Except.error "Content-Length isn\'t a valid number" := by
  unfold extract_header_info
  simp [hs, hp]

/-- A Content-Disposition without a filename parameter fails the probe,
provided the earlier Content-Length step succeeded. -/
theorem extract_error_cd (response : HttpResponse) (cd : String)
    (h1 : response.content_length = none ∨
      ∃ s v, response.content_length = some s ∧ parseU64 s = some v)
    (hcd : response.content_disposition = some cd) (hf : cdFilename cd = none) :
    extract_header_info response =
      Except.error "Filename not found in content-disposition header." := by
  rcases h1 with h1 | ⟨s, v, hs, hv⟩ <;> simp_all [extract_header_info]

/-- Inversion: what a successful extract_header_info says about each field. -/
theorem extract_ok_inv (response : HttpResponse) (info : ResponseHeaderInfo)
    (h : extract_header_info response = Except.ok info) :
    info.content_length = (match response.content_length with
      | none => none
      | some s => parseU64 s) ∧
    info.support_partial = (match response.accept_ranges with
      | none => SupportPartialRequest.Unknown
      | some a => if strContains a "bytes" then SupportPartialRequest.Yes
          else SupportPartialRequest.No) ∧
    info.content_type = response.content_type ∧
    info.file_name = (match response.content_disposition with
      | some cd => cdFilename cd
      | none => some ((response.url_last_segment).getD "download_file")) := by
  cases hc : response.content_length with
  | some s =>
    cases hp : parseU64 s with
    | none =>
      rw [extract_error_cl response s hc hp] at h
      exact absurd h (by simp)
    | some v =>
      cases hd : response.content_disposition with
      | some cd =>
        cases hf : cdFilename cd with
        | none =>
          rw [extract_error_cd response cd (Or.inr ⟨s, v, hc, hp⟩) hd hf] at h
          exact absurd h (by simp)
        | some f =>
          simp only [extract_header_info, hc, hp, hd, hf] at h
          injection h with h
          subst h
          simp [hc, hp, hd, hf]
      | none =>
        cases hseg : response.url_last_segment with
        | some seg =>
          simp only [extract_header_info, hc, hp, hd, hseg] at h
          injection h with h
          subst h
          simp [hc, hp, hd, hseg]
        | none =>
          simp only [extract_header_info, hc, hp, hd, hseg] at h
          injection h with h
          subst h
          simp [hc, hp, hd, hseg]
  | none =>
    cases hd : response.content_disposition with
    | some cd =>
      cases hf : cdFilename cd with
      | none =>
        rw [extract_error_cd response cd (Or.inl hc) hd hf] at h
        exact absurd h (by simp)
      | some f =>
        simp only [extract_header_info, hc, hd, hf] at h
        injection h with h
        subst h
        simp [hc, hd, hf]
    | none =>
      cases hseg : response.url_last_segment with
      | some seg =>
        simp only [extract_header_info, hc, hd, hseg] at h
        injection h with h
        subst h
        simp [hc, hd, hseg]
      | none =>
        simp only [extract_header_info, hc, hd, hseg] at h
        injection h with h
        subst h
        simp [hc, hd, hseg]

/-- When the Content-Length and file-name steps succeed, extract_header_info
succeeds. -/
theorem extract_ok_exists (response : HttpResponse)
    (h1 : response.content_length = none ∨
      ∃ s v, response.content_length = some s ∧ parseU64 s = some v)
    (h2 : response.content_disposition = none ∨
      ∃ c f, response.content_disposition = some c ∧ cdFilename c = some f) :
    ∃ info, extract_header_info response = Except.ok info := by
  cases hres : extract_header_info response with
  | ok info => exact ⟨info, rfl⟩
  | error e =>
    exfalso
    rcases h1 with h1 | ⟨s, v, hs, hv⟩ <;>
      rcases h2 with h2 | ⟨c, f, hc, hf⟩ <;>
        cases hseg : response.url_last_segment <;>
          simp_all [extract_header_info]

/-- C7: a successful probe derives supports_ranges as Yes exactly when
Accept-Ranges is present and contains the token "bytes", No when present
without it, Unknown when absent; total_length is the parsed Content-Length
when present (its parse necessarily succeeded), None when absent; and a
present but unparseable Content-Length fails the probe with an error. -/
theorem probe_header_derivation :
    ∀ (response : HttpResponse) (info : ResponseHeaderInfo),
      (extract_header_info response = Except.ok info →
        (info.content_length = (match response.content_length with
          | none => none
          | some s => parseU64 s)) ∧
        (info.support_partial = SupportPartialRequest.Yes ↔
          ∃ s, response.accept_ranges = some s ∧ strContains s "bytes" = true) ∧
        (info.support_partial = SupportPartialRequest.No ↔
          ∃ s, response.accept_ranges = some s ∧ strContains s "bytes" = false) ∧
        (info.support_partial = SupportPartialRequest.Unknown ↔
          response.accept_ranges = none)) ∧
      (∀ s, response.content_length = some s → parseU64 s = none →
        extract_header_info response =
          Except.error "Content-Length isn\'t a valid number") := by
  intro response info
  constructor
  · intro h
    obtain ⟨hcl, hsup, -, -⟩ := extract_ok_inv response info h
    refine ⟨hcl, ?_, ?_, ?_⟩
    · rw [hsup]
      cases har : response.accept_ranges with
      | none => simp
      | some a => cases hb : strContains a "bytes" <;> simp [hb]
    · rw [hsup]
      cases har : response.accept_ranges with
      | none => simp
      | some a => cases hb : strContains a "bytes" <;> simp [hb]
    · rw [hsup]
      cases har : response.accept_ranges with
      | none => simp
      | some a => cases hb : strContains a "bytes" <;> simp [hb]
  · intro s hs hp
    exact extract_error_cl response s hs hp

/-- C7 witness: Accept-Ranges bytes with Content-Length 1000000 probes to
Yes with total length 1000000, and a malformed Content-Length errors. -/
theorem probe_header_derivation_witness :
    (ResponseHeaderInfo.support_partial
        ⟨SupportPartialRequest.Yes, some 1000000, none, some "data.bin"⟩ =
        SupportPartialRequest.Yes ↔
      ∃ s, (⟨some "1000000", some "bytes", none, none, some "data.bin"⟩ :
        HttpResponse).accept_ranges = some s ∧ strContains s "bytes" = true) ∧
    extract_header_info ⟨some "12monkeys", none, none, none, some "data.bin"⟩ =
      Except.error "Content-Length isn\'t a valid number" := by
  constructor
  · exact ((probe_header_derivation
      ⟨some "1000000", some "bytes", none, none, some "data.bin"⟩
      ⟨SupportPartialRequest.Yes, some 1000000, none, some "data.bin"⟩).1 rfl).2.1
  · exact (probe_header_derivation ⟨some "12monkeys", none, none, none, some "data.bin"⟩
      ⟨SupportPartialRequest.Unknown, none, none, none⟩).2 "12monkeys" rfl rfl

/-- C8: the suggested file name comes first from the Content-Disposition
filename parameter with surrounding quotes stripped (a Content-Disposition
without a filename parameter fails the probe), else from the last path
segment of the resolved URL, else the fixed default "download_file"; the
header value attachment; filename="report.pdf" resolves to report.pdf. -/
theorem file_name_resolution_order :
    ∀ response : HttpResponse,
      (response.content_length = none ∨
        ∃ s v, response.content_length = some s ∧ parseU64 s = some v) →
      ((∀ cd f, response.content_disposition = some cd → cdFilename cd = some f →
          ∃ info, extract_header_info response = Except.ok info ∧
            info.file_name = some f) ∧
       (∀ cd, response.content_disposition = some cd → cdFilename cd = none →
          extract_header_info response =
            Except.error "Filename not found in content-disposition header.") ∧
       (response.content_disposition = none →
          ∀ seg, response.url_last_segment = some seg →
          ∃ info, extract_header_info response = Except.ok info ∧
            info.file_name = some seg) ∧
       (response.content_disposition = none → response.url_last_segment = none →
          ∃ info, extract_header_info response = Except.ok info ∧
            info.file_name = some "download_file") ∧
       cdFilename "attachment; filename=\"report.pdf\"" = some "report.pdf") := by
  intro response h1
  refine ⟨?_, ?_, ?_, ?_, by decide⟩
  · intro cd f hcd hf
    obtain ⟨info, hok⟩ := extract_ok_exists response h1 (Or.inr ⟨cd, f, hcd, hf⟩)
    refine ⟨info, hok, ?_⟩
    rw [(extract_ok_inv response info hok).2.2.2, hcd]
    exact hf
  · intro cd hcd hf
    exact extract_error_cd response cd h1 hcd hf
  · intro hcd seg hseg
    obtain ⟨info, hok⟩ := extract_ok_exists response h1 (Or.inl hcd)
    refine ⟨info, hok, ?_⟩
    rw [(extract_ok_inv response info hok).2.2.2, hcd, hseg]
    rfl
  · intro hcd hseg
    obtain ⟨info, hok⟩ := extract_ok_exists response h1 (Or.inl hcd)
    refine ⟨info, hok, ?_⟩
    rw [(extract_ok_inv response info hok).2.2.2, hcd, hseg]
    rfl

/-- C8 witness: a response with Content-Disposition attachment;
filename="report.pdf" probes to the file name report.pdf. -/
theorem file_name_resolution_order_witness :
    ∃ info, extract_header_info
        ⟨none, none, none, some "attachment; filename=\"report.pdf\"", none⟩ =
        Except.ok info ∧ info.file_name = some "report.pdf" := by
  exact (file_name_resolution_order
    ⟨none, none, none, some "attachment; filename=\"report.pdf\"", none⟩
    (Or.inl rfl)).1 "attachment; filename=\"report.pdf\"" "report.pdf" rfl (by decide)

/-- A state produced by new has status Idle. -/
theorem new_status (m : Nat) (st : RustleDownloaderInner)
    (h : new m = Except.ok st) : st.download_status = DownloadStatus.Idle := by
  injection h with h
  rw [← h]

/-- set_url never changes the download status. -/
theorem set_url_preserves_status (st : RustleDownloaderInner) (u : String)
    (parse_ok : Bool) :
    ((set_url st u parse_ok).2).download_status = st.download_status := by
  cases parse_ok <;> rfl

/-- init never changes the download status. -/
theorem init_preserves_status (st : RustleDownloaderInner)
    (resp : Except String HttpResponse) :
    ((init st resp).2).download_status = st.download_status := by
  unfold init
  split
  · rfl
  · split
    · rfl
    · split
      · rfl
      · split <;> rfl

/-- download leaves the status unchanged or moves it to Downloading or Done. -/
theorem download_status_cases (st : RustleDownloaderInner)
    (fetch : Nat → PartRange → Except String (List Nat)) (write_ok : Bool) :
    ((download st fetch write_ok).2.1).download_status = st.download_status ∨
    ((download st fetch write_ok).2.1).download_status = DownloadStatus.Downloading ∨
    ((download st fetch write_ok).2.1).download_status = DownloadStatus.Done := by
  unfold download
  by_cases h1 : st.url = none
  · rw [if_pos h1]
    exact Or.inl rfl
  rw [if_neg h1]
  by_cases h2 : st.out_dir = none
  · rw [if_pos h2]
    exact Or.inl rfl
  rw [if_neg h2]
  cases hh : st.get_headers_info with
  | none => exact Or.inl rfl
  | some hi =>
    dsimp only
    by_cases hn : effectiveNumParts hi.support_partial hi.content_length
      st.max_parallel_connections = 0
    · rw [if_pos hn]
      exact Or.inl rfl
    · rw [if_neg hn]
      cases hf : hi.file_name with
      | none => exact Or.inr (Or.inl rfl)
      | some fn =>
        cases write_ok
        · exact Or.inr (Or.inl rfl)
        · exact Or.inr (Or.inr rfl)

/-- C10: no engine operation ever assigns the Error status: every state
reachable from new through set_url, set_out_dir, init, pause, resume and
download (download_part_from_url does not touch the state) has one of the
statuses Idle, Downloading, Paused, Done, whatever the probe, part-fetch
and file-write outcomes are. -/
theorem no_error_status_reachable :
    ∀ st : RustleDownloaderInner, Reachable st →
      st.download_status = DownloadStatus.Idle ∨
      st.download_status = DownloadStatus.Downloading ∨
      st.download_status = DownloadStatus.Paused ∨
      st.download_status = DownloadStatus.Done := by
  intro st h
  induction h with
  | from_new m st hnew => exact Or.inl (new_status m st hnew)
  | step_set_url st u parse_ok _ ih =>
    rw [set_url_preserves_status]
    exact ih
  | step_set_out_dir st d _ ih => exact ih
  | step_init st resp _ ih =>
    rw [init_preserves_status]
    exact ih
  | step_pause st _ ih => exact Or.inr (Or.inr (Or.inl rfl))
  | step_resume st _ ih => exact Or.inr (Or.inl rfl)
  | step_download st fetch write_ok _ ih =>
    rcases download_status_cases st fetch write_ok with hs | hs | hs
    · rw [hs]
      exact ih
    · rw [hs]
      exact Or.inr (Or.inl rfl)
    · rw [hs]
      exact Or.inr (Or.inr (Or.inr rfl))

/-- C10 witness: a concrete reachable state (new, set_out_dir, pause) has
one of the four non-Error statuses. -/
theorem no_error_status_reachable_witness :
    (pause (set_out_dir idleState "out")).download_status = DownloadStatus.Idle ∨
    (pause (set_out_dir idleState "out")).download_status = DownloadStatus.Downloading ∨
    (pause (set_out_dir idleState "out")).download_status = DownloadStatus.Paused ∨
    (pause (set_out_dir idleState "out")).download_status = DownloadStatus.Done := by
  exact no_error_status_reachable _
    (Reachable.step_pause _ (Reachable.step_set_out_dir _ "out"
      (Reachable.from_new 2 idleState rfl)))

end Rustle
